import Mathlib

/-!
# PodTracker controller: reconcile / event-mapping pipeline

A shallow embedding of `internal/controller/podtracker_controller.go`:
`Reconcile`, `report` and `HandlePodEvents`, run against an explicit model of
the two collaborators the code talks to (the API-server client and the Slack
client).  Every client call threads the cluster state, consumes one entry of a
fault script (the outcome the collaborator gives to that call) and is recorded
where the properties need it (`updates`, `sent`).  Logging is not modelled.
-/

namespace TrackerController

/-! ## Data model -/

/-- Errors a client call can return; `NotFound` is what `apierrors.IsNotFound`
recognises, `Conflict` is the optimistic-concurrency failure of a write. -/
inductive APIError where
  | NotFound
  | Conflict
  | Other (reason : String)
  deriving DecidableEq, Repr

/-- The key `types.NamespacedName`. -/
structure NamespacedName where
  Namespace : String
  Name : String
  deriving DecidableEq, Repr

/-- The work item `reconcile.Request` (`ctrl.Request`). -/
structure Request where
  NamespacedName : NamespacedName
  deriving DecidableEq, Repr

/-- The value `ctrl.Result`; `ctrl.Result{}` is the default value. -/
structure Result where
  Requeue : Bool := false
  RequeueAfter : Nat := 0
  deriving DecidableEq, Repr

/-- The fields of `v1.Pod` the controller touches.  The annotation map
`map[string]string` is an association list read through `annotationsGet`. -/
structure Pod where
  Namespace : String
  Name : String
  Annotations : List (String × String)
  deriving DecidableEq, Repr

/-- Modelled from the spec: the type declaration of `Reporter`
(`api/v1/podtracker_types.go`) is not among the sources; the fields are the ones
`report` reads, `report.key` and `report.channel` of the configuration surface. -/
structure Reporter where
  Key : String
  Channel : String
  deriving DecidableEq, Repr

/-- Modelled from the spec: the type declaration of `PodTrackerSpec`
(`api/v1/podtracker_types.go`) is not among the sources; a display name and the
reporter record, as `report` reads them. -/
structure PodTrackerSpec where
  Name : String
  Report : Reporter
  deriving DecidableEq, Repr

/-- Modelled from the spec: the type declaration of `PodTracker`
(`api/v1/podtracker_types.go`) is not among the sources; identity and `Spec`. -/
structure PodTracker where
  Namespace : String
  Name : String
  Spec : PodTrackerSpec
  deriving DecidableEq, Repr

/-- One call of the Slack client: the token the client was built with
(`slack.New`), and the channel and message text given to `SendMessage`. -/
structure SlackCall where
  Token : String
  Channel : String
  Text : String
  deriving DecidableEq, Repr

/-- The world the controller runs in: the stored objects, the outcome scripts of
the collaborators (entry `some e`: the next call of that kind fails with `e`;
`none` or an exhausted script: it is served), and the record of the `Update` and
`SendMessage` calls issued so far, oldest first. -/
structure Cluster where
  Trackers : List PodTracker
  Pods : List Pod
  listFaults : List (Option APIError) := []
  getFaults : List (Option APIError) := []
  updateFaults : List (Option APIError) := []
  sendFaults : List (Option String) := []
  updates : List Pod := []
  sent : List SlackCall := []
  deriving DecidableEq, Repr

/-! ## Collaborators -/

/-- Outcome the script gives to the next call. -/
def nextFault {ε : Type} : List (Option ε) → Option ε
  | [] => none
  | f :: _ => f

/-- Go map read `m[key]`: the value stored under `key`, the empty string when
the key is absent. -/
def annotationsGet : List (String × String) → String → String
  | [], _ => ""
  | (k, v) :: rest, key => if k = key then v else annotationsGet rest key

/-- Whether a stored pod is the object named by `key`. -/
def hasKey (key : NamespacedName) (p : Pod) : Bool :=
  decide (p.Namespace = key.Namespace ∧ p.Name = key.Name)

/-- Stored pod under `key`, if any. -/
def findPod (pods : List Pod) (key : NamespacedName) : Option Pod :=
  pods.find? (hasKey key)

/-- Store write: the object under the key of `obj` is replaced by `obj`. -/
def replacePod (pods : List Pod) (obj : Pod) : List Pod :=
  pods.map (fun p => if hasKey ⟨obj.Namespace, obj.Name⟩ p then obj else p)

/-- Client call `r.List(ctx, &podTrackerList)`. -/
def apiList (c : Cluster) : Except APIError (List PodTracker) × Cluster :=
  let c1 := { c with listFaults := c.listFaults.tail }
  match nextFault c.listFaults with
  | some e => (.error e, c1)
  | none => (.ok c.Trackers, c1)

/-- Client call `r.Get(ctx, key, &podObject)`. -/
def apiGet (c : Cluster) (key : NamespacedName) : Except APIError Pod × Cluster :=
  let c1 := { c with getFaults := c.getFaults.tail }
  match nextFault c.getFaults with
  | some e => (.error e, c1)
  | none =>
    match findPod c.Pods key with
    | some p => (.ok p, c1)
    | none => (.error .NotFound, c1)

/-- Client call `r.Update(ctx, &podObject)`: recorded in `updates` whatever its
outcome; the store changes only when the call is served. -/
def apiUpdate (c : Cluster) (obj : Pod) : Option APIError × Cluster :=
  let c1 := { c with updateFaults := c.updateFaults.tail, updates := c.updates ++ [obj] }
  match nextFault c.updateFaults with
  | some e => (some e, c1)
  | none =>
    match findPod c.Pods ⟨obj.Namespace, obj.Name⟩ with
    | some _ => (none, { c1 with Pods := replacePod c.Pods obj })
    | none => (some .NotFound, c1)

/-- Slack call `slack.New(token).SendMessage(channel, msg)`: recorded in `sent`
whatever its outcome. -/
def slackSendMessage (c : Cluster) (token channel text : String) : Option String × Cluster :=
  let c1 := { c with sendFaults := c.sendFaults.tail,
                     sent := c.sent ++ [{ Token := token, Channel := channel, Text := text }] }
  (nextFault c.sendFaults, c1)

/-- Library helper `client.IgnoreNotFound`: `nil` for a not-found error, the
error itself otherwise. -/
def IgnoreNotFound : Option APIError → Option APIError
  | some .NotFound => none
  | err => err

/-! ## The controller -/

/-- Source `report`: one Slack message per call, the delivery error dropped. -/
def report (c : Cluster) (reporter : PodTracker) (pod : Pod) : Cluster :=
  let slackChannel := reporter.Spec.Report.Channel
  let message := "New pod created: " ++ pod.Name
  let (_err, c1) := slackSendMessage c reporter.Spec.Report.Key slackChannel message
  c1

/-- Source `PodTrackerReconciler.Reconcile`; the test `len(Items) == 0` and the
read of `Items[0]` are the two cases of the match on the listing. -/
def Reconcile (c : Cluster) (req : Request) : (Result × Option APIError) × Cluster :=
  match apiList c with
  | (.error err, c1) => (({}, IgnoreNotFound (some err)), c1)
  | (.ok items, c1) =>
    match items with
    | [] => (({}, none), c1)
    | reporter :: _ =>
      match apiGet c1 req.NamespacedName with
      | (.error err, c2) => (({}, IgnoreNotFound (some err)), c2)
      | (.ok podObject, c2) => (({}, none), report c2 reporter podObject)

/-- Source `HandlePodEvents`, lines 143-157: the annotation map is replaced by
the marker, the `Update` error is dropped, one request is returned. -/
def markAndRequest (c : Cluster) (namespacedName : NamespacedName) (podObject : Pod) :
    List Request × Cluster :=
  let podObject1 := { podObject with Annotations := [("SourceCRD", "crd.kube.op")] }
  let (_err, c1) := apiUpdate c podObject1
  ([{ NamespacedName := namespacedName }], c1)

/-- Source `PodTrackerReconciler.HandlePodEvents`; `pod` is the event payload. -/
def HandlePodEvents (c : Cluster) (pod : Pod) : List Request × Cluster :=
  if pod.Namespace ≠ "default" then ([], c)
  else
    let namespacedName : NamespacedName := { Namespace := pod.Namespace, Name := pod.Name }
    match apiGet c namespacedName with
    | (.error _, c1) => ([], c1)
    | (.ok podObject, c1) =>
      if podObject.Annotations.length = 0 then
        markAndRequest c1 namespacedName podObject
      else if annotationsGet podObject.Annotations "exampleAnnotation" = "crd.kube.op" then
        markAndRequest c1 namespacedName podObject
      else ([], c1)

/-! ## Sample states -/

/-- The marker annotation set the event mapper writes. -/
def markerAnnotations : List (String × String) := [("SourceCRD", "crd.kube.op")]

def samplePod (anns : List (String × String)) : Pod :=
  { Namespace := "default", Name := "web-7f9", Annotations := anns }

def sampleTracker : PodTracker :=
  { Namespace := "default", Name := "t1",
    Spec := { Name := "ops", Report := { Key := "xoxb-1", Channel := "C42" } } }

def sampleCluster (anns : List (String × String)) : Cluster :=
  { Trackers := [sampleTracker], Pods := [samplePod anns] }

def secondTracker : PodTracker :=
  { Namespace := "default", Name := "t2",
    Spec := { Name := "dev", Report := { Key := "xoxb-2", Channel := "C77" } } }

def sampleKey : NamespacedName := { Namespace := "default", Name := "web-7f9" }

def sampleRequest : Request := { NamespacedName := sampleKey }

/-- Two trackers, the pod stored, every call served. -/
def twoTrackerCluster : Cluster :=
  { Trackers := [sampleTracker, secondTracker], Pods := [samplePod []] }

/-- One tracker, the pod of the request deleted before the reconciliation. -/
def podGoneCluster : Cluster :=
  { Trackers := [sampleTracker], Pods := [] }

/-- One tracker, the pod stored, the Slack call failing. -/
def sinkDownCluster : Cluster :=
  { Trackers := [sampleTracker], Pods := [samplePod []],
    sendFaults := [some "channel_not_found"] }

/-- The annotation the classification of `HandlePodEvents` reads. -/
def sentinelAnnotations : List (String × String) := [("exampleAnnotation", "crd.kube.op")]

/-- The object `HandlePodEvents` hands to `Update`. -/
def markedPod (p : Pod) : Pod := { p with Annotations := markerAnnotations }

/-- The pod stored without annotations, the first `Update` meeting a write
conflict and every later one served. -/
def conflictOnceCluster : Cluster :=
  { Trackers := [sampleTracker], Pods := [samplePod []], updateFaults := [some .Conflict] }

/-- The pod stored without annotations, the `Update` failing on a timeout. -/
def writeTimeoutCluster : Cluster :=
  { Trackers := [sampleTracker], Pods := [samplePod []],
    updateFaults := [some (.Other "request timed out")] }

/-- The pod stored with exactly the marker `SourceCRD = crd.kube.op`, the next
`Update` meeting a write conflict. -/
def markedConflictCluster : Cluster :=
  { Trackers := [sampleTracker], Pods := [samplePod [("SourceCRD", "crd.kube.op")]],
    updateFaults := [some .Conflict] }

/-- The pod stored with the marker and the annotation the classification
reads. -/
def managedAnnotations : List (String × String) :=
  [("SourceCRD", "crd.kube.op"), ("exampleAnnotation", "crd.kube.op")]

/-- An annotation set of another owner. -/
def foreignAnnotations : List (String × String) := [("team", "payments")]

/-! ## Facts about the collaborators -/

theorem apiList_snd (c : Cluster) :
    (apiList c).2 = { c with listFaults := c.listFaults.tail } := by
  unfold apiList
  cases nextFault c.listFaults <;> rfl

theorem apiGet_snd (c : Cluster) (key : NamespacedName) :
    (apiGet c key).2 = { c with getFaults := c.getFaults.tail } := by
  unfold apiGet
  cases nextFault c.getFaults with
  | some e => rfl
  | none => cases findPod c.Pods key <;> rfl

/-- A read is not affected by the `List` call made before it. -/
theorem apiGet_after_apiList (c : Cluster) (key : NamespacedName) :
    (apiGet (apiList c).2 key).1 = (apiGet c key).1 := by
  rw [apiList_snd]
  unfold apiGet
  cases hf : nextFault c.getFaults with
  | some e => simp [hf]
  | none => cases hp : findPod c.Pods key <;> simp [hf, hp]

/-- A served read returns the stored object, and that object bears the key. -/
theorem apiGet_ok (c : Cluster) (key : NamespacedName) (p : Pod)
    (h : (apiGet c key).1 = .ok p) :
    nextFault c.getFaults = none ∧ findPod c.Pods key = some p ∧
      p.Namespace = key.Namespace ∧ p.Name = key.Name := by
  unfold apiGet at h
  cases hf : nextFault c.getFaults with
  | some e => simp [hf] at h
  | none =>
    cases hp : findPod c.Pods key with
    | none => simp [hf, hp] at h
    | some q =>
      simp only [hf, hp] at h
      have hq : q = p := by injection h
      subst hq
      have hk := List.find?_some hp
      simp only [hasKey, decide_eq_true_eq] at hk
      exact ⟨rfl, rfl, hk.1, hk.2⟩

theorem findPod_replacePod (pods : List Pod) (key : NamespacedName) (p obj : Pod)
    (h : findPod pods key = some p) (hk : key = ⟨obj.Namespace, obj.Name⟩) :
    findPod (replacePod pods obj) key = some obj := by
  subst hk
  have hobj : hasKey ⟨obj.Namespace, obj.Name⟩ obj = true := by simp [hasKey]
  induction pods with
  | nil => simp [findPod] at h
  | cons q rest ih =>
    cases hq : hasKey ⟨obj.Namespace, obj.Name⟩ q with
    | true =>
      show List.find? _ (List.map _ (q :: rest)) = some obj
      rw [List.map_cons, if_pos hq, List.find?_cons, hobj]
    | false =>
      have h2 : findPod rest ⟨obj.Namespace, obj.Name⟩ = some p := by
        unfold findPod at h ⊢
        rw [List.find?_cons, hq] at h
        exact h
      have ih2 := ih h2
      unfold findPod replacePod at ih2
      show List.find? _ (List.map _ (q :: rest)) = some obj
      rw [List.map_cons, hq, if_neg (by simp), List.find?_cons, hq]
      exact ih2

/-! ## The four ways through `Reconcile` -/

theorem Reconcile_of_list_error (c : Cluster) (req : Request) (e : APIError)
    (hl : (apiList c).1 = .error e) :
    Reconcile c req = (({}, IgnoreNotFound (some e)), (apiList c).2) := by
  unfold Reconcile
  rcases hA : apiList c with ⟨r, c1⟩
  rw [hA] at hl
  simp only at hl
  subst hl
  rfl

theorem Reconcile_of_list_empty (c : Cluster) (req : Request)
    (hl : (apiList c).1 = .ok []) :
    Reconcile c req = (({}, none), (apiList c).2) := by
  unfold Reconcile
  rcases hA : apiList c with ⟨r, c1⟩
  rw [hA] at hl
  simp only at hl
  subst hl
  rfl

theorem Reconcile_of_get_error (c : Cluster) (req : Request) (t : PodTracker)
    (ts : List PodTracker) (e : APIError)
    (hl : (apiList c).1 = .ok (t :: ts))
    (hg : (apiGet c req.NamespacedName).1 = .error e) :
    Reconcile c req =
      (({}, IgnoreNotFound (some e)), (apiGet (apiList c).2 req.NamespacedName).2) := by
  rw [← apiGet_after_apiList] at hg
  unfold Reconcile
  rcases hA : apiList c with ⟨r, c1⟩
  rw [hA] at hl hg
  simp only at hl hg
  subst hl
  rcases hB : apiGet c1 req.NamespacedName with ⟨g, c2⟩
  rw [hB] at hg
  simp only at hg
  subst hg
  simp only [hB]

theorem Reconcile_of_get_ok (c : Cluster) (req : Request) (t : PodTracker)
    (ts : List PodTracker) (pod : Pod)
    (hl : (apiList c).1 = .ok (t :: ts))
    (hg : (apiGet c req.NamespacedName).1 = .ok pod) :
    Reconcile c req =
      (({}, none), report (apiGet (apiList c).2 req.NamespacedName).2 t pod) := by
  rw [← apiGet_after_apiList] at hg
  unfold Reconcile
  rcases hA : apiList c with ⟨r, c1⟩
  rw [hA] at hl hg
  simp only at hl hg
  subst hl
  rcases hB : apiGet c1 req.NamespacedName with ⟨g, c2⟩
  rw [hB] at hg
  simp only at hg
  subst hg
  simp only [hB]

/-- The reads leave the delivery record and the delivery script alone. -/
theorem reads_keep_sent (c : Cluster) (key : NamespacedName) :
    (apiList c).2.sent = c.sent ∧ (apiGet (apiList c).2 key).2.sent = c.sent ∧
      (apiGet (apiList c).2 key).2.sendFaults = c.sendFaults := by
  rw [apiGet_snd, apiList_snd]
  exact ⟨rfl, rfl, rfl⟩

/-- The outcome of `List` is `ok` or `error`, and likewise for `Get`. -/
theorem except_cases {α : Type} (r : Except APIError α) :
    (∃ e, r = .error e) ∨ (∃ a, r = .ok a) := by
  cases r with
  | error e => exact Or.inl ⟨e, rfl⟩
  | ok a => exact Or.inr ⟨a, rfl⟩

theorem IgnoreNotFound_eq_some (e err : APIError) :
    IgnoreNotFound (some e) = some err ↔ err ≠ .NotFound ∧ e = err := by
  cases e <;> cases err <;> simp [IgnoreNotFound]

/-! ## The ways through `HandlePodEvents` -/

theorem HandlePodEvents_of_get_error (c : Cluster) (pod : Pod) (e : APIError)
    (hg : (apiGet c ⟨pod.Namespace, pod.Name⟩).1 = .error e) :
    (HandlePodEvents c pod).1 = [] ∧ (HandlePodEvents c pod).2.Pods = c.Pods ∧
      (HandlePodEvents c pod).2.updates = c.updates := by
  unfold HandlePodEvents
  by_cases hns : pod.Namespace = "default"
  · rw [if_neg (not_not.mpr hns)]
    dsimp only
    have h2 := apiGet_snd c ⟨pod.Namespace, pod.Name⟩
    rcases hB : apiGet c ⟨pod.Namespace, pod.Name⟩ with ⟨g, c1⟩
    rw [hB] at hg h2
    simp only at hg h2
    subst hg
    subst h2
    exact ⟨rfl, rfl, rfl⟩
  · rw [if_pos hns]
    exact ⟨rfl, rfl, rfl⟩

theorem HandlePodEvents_of_rejected (c : Cluster) (pod podObject : Pod)
    (hg : (apiGet c ⟨pod.Namespace, pod.Name⟩).1 = .ok podObject)
    (hne : podObject.Annotations.length ≠ 0)
    (hs : annotationsGet podObject.Annotations "exampleAnnotation" ≠ "crd.kube.op") :
    (HandlePodEvents c pod).1 = [] ∧ (HandlePodEvents c pod).2.Pods = c.Pods ∧
      (HandlePodEvents c pod).2.updates = c.updates := by
  unfold HandlePodEvents
  by_cases hns : pod.Namespace = "default"
  · rw [if_neg (not_not.mpr hns)]
    dsimp only
    have h2 := apiGet_snd c ⟨pod.Namespace, pod.Name⟩
    rcases hB : apiGet c ⟨pod.Namespace, pod.Name⟩ with ⟨g, c1⟩
    rw [hB] at hg h2
    simp only at hg h2
    subst hg
    subst h2
    dsimp only
    rw [if_neg hne, if_neg hs]
    exact ⟨rfl, rfl, rfl⟩
  · rw [if_pos hns]
    exact ⟨rfl, rfl, rfl⟩

theorem HandlePodEvents_of_admitted (c : Cluster) (pod podObject : Pod)
    (hns : pod.Namespace = "default")
    (hg : (apiGet c ⟨pod.Namespace, pod.Name⟩).1 = .ok podObject)
    (hann : podObject.Annotations.length = 0 ∨
      annotationsGet podObject.Annotations "exampleAnnotation" = "crd.kube.op") :
    HandlePodEvents c pod =
      markAndRequest { c with getFaults := c.getFaults.tail } ⟨pod.Namespace, pod.Name⟩
        podObject := by
  unfold HandlePodEvents
  rw [if_neg (not_not.mpr hns)]
  dsimp only
  have h2 := apiGet_snd c ⟨pod.Namespace, pod.Name⟩
  rcases hB : apiGet c ⟨pod.Namespace, pod.Name⟩ with ⟨g, c1⟩
  rw [hB] at hg h2
  simp only at hg h2
  subst hg
  subst h2
  by_cases h0 : podObject.Annotations.length = 0
  · simp only [if_pos h0]
  · simp only [if_neg h0, if_pos (hann.resolve_left h0)]

/-- What the marking step does: one request, one `Update` call recorded, one
script entry consumed; the store is rewritten when the call is served and left
as it was when the call fails. -/
theorem markAndRequest_effect (c : Cluster) (key : NamespacedName) (podObject : Pod)
    (hf : findPod c.Pods key = some podObject) :
    (markAndRequest c key podObject).1 = [{ NamespacedName := key }] ∧
      (markAndRequest c key podObject).2.updates = c.updates ++ [markedPod podObject] ∧
      (markAndRequest c key podObject).2.updateFaults = c.updateFaults.tail ∧
      (markAndRequest c key podObject).2.getFaults = c.getFaults ∧
      (nextFault c.updateFaults = none →
        (markAndRequest c key podObject).2.Pods = replacePod c.Pods (markedPod podObject) ∧
        findPod (markAndRequest c key podObject).2.Pods key = some (markedPod podObject)) ∧
      (∀ e, nextFault c.updateFaults = some e →
        (markAndRequest c key podObject).2.Pods = c.Pods) := by
  have hk := List.find?_some hf
  simp only [hasKey, decide_eq_true_eq] at hk
  have hkey : key = ⟨podObject.Namespace, podObject.Name⟩ := by
    cases key
    simp only [NamespacedName.mk.injEq]
    exact ⟨hk.1.symm, hk.2.symm⟩
  have hf2 : findPod c.Pods ⟨podObject.Namespace, podObject.Name⟩ = some podObject := by
    rw [← hkey]
    exact hf
  unfold markAndRequest apiUpdate
  cases hu : nextFault c.updateFaults with
  | some e =>
    dsimp only
    exact ⟨rfl, rfl, rfl, rfl, fun h => Option.noConfusion h, fun _ _ => rfl⟩
  | none =>
    have hf3 : findPod c.Pods
        ⟨(markedPod podObject).Namespace, (markedPod podObject).Name⟩ = some podObject := hf2
    have hm : markedPod podObject =
        { podObject with Annotations := [("SourceCRD", "crd.kube.op")] } := rfl
    rw [← hm]
    dsimp only
    rw [hf3]
    dsimp only
    refine ⟨rfl, rfl, rfl, rfl, fun _ => ⟨rfl, ?_⟩, fun e h => Option.noConfusion h⟩
    exact findPod_replacePod c.Pods key podObject (markedPod podObject) hf hkey

theorem annotationsGet_ne_of_nil (anns : List (String × String)) (key value : String)
    (h : annotationsGet anns key = value) (hv : value ≠ "") : anns.length ≠ 0 := by
  cases anns with
  | nil =>
    simp only [annotationsGet] at h
    exact absurd h.symm hv
  | cons a rest => simp

/-! ## Properties of `Reconcile` -/

/-- C1: when the Tracker listing succeeds with a non-empty list and the Workload
named by the request key is read, `Reconcile` makes exactly one delivery, built
from the first Tracker of the listing: the text is "New pod created: " followed
by the workload's name (so it contains that name), the channel is that Tracker's
`Spec.Report.Channel` and the credential is that Tracker's `Spec.Report.Key`. -/
theorem Reconcile_reports_once_with_first_tracker (c : Cluster) (req : Request)
    (t : PodTracker) (ts : List PodTracker) (pod : Pod)
    (hl : (apiList c).1 = .ok (t :: ts))
    (hg : (apiGet c req.NamespacedName).1 = .ok pod) :
    (Reconcile c req).2.sent =
        c.sent ++ [{ Token := t.Spec.Report.Key, Channel := t.Spec.Report.Channel,
                     Text := "New pod created: " ++ pod.Name }] ∧
      pod.Name = req.NamespacedName.Name ∧
      pod.Name.data <:+: ("New pod created: " ++ pod.Name).data := by
  refine ⟨?_, (apiGet_ok c _ pod hg).2.2.2, ?_⟩
  · rw [Reconcile_of_get_ok c req t ts pod hl hg]
    show (apiGet (apiList c).2 req.NamespacedName).2.sent ++ _ = _
    rw [(reads_keep_sent c req.NamespacedName).2.1]
  · exact ⟨"New pod created: ".data, [], by simp [String.data_append]⟩

theorem Reconcile_reports_once_with_first_tracker_witness :
    (apiList twoTrackerCluster).1 = .ok [sampleTracker, secondTracker] ∧
      (apiGet twoTrackerCluster sampleKey).1 = .ok (samplePod []) ∧
      (Reconcile twoTrackerCluster sampleRequest).2.sent =
        [{ Token := "xoxb-1", Channel := "C42", Text := "New pod created: web-7f9" }] ∧
      "web-7f9".data <:+: "New pod created: web-7f9".data :=
  have h := Reconcile_reports_once_with_first_tracker twoTrackerCluster sampleRequest
    sampleTracker [secondTracker] (samplePod []) rfl rfl
  ⟨rfl, rfl, h.1, h.2.2⟩

/-- C5: when the Tracker list is empty, or it is non-empty and the Workload named
by the request key is not found, `Reconcile` returns the empty Result with a nil
error and makes no delivery. -/
theorem Reconcile_nothing_to_report (c : Cluster) (req : Request)
    (h : (apiList c).1 = .ok [] ∨
      ∃ t ts, (apiList c).1 = .ok (t :: ts) ∧
        (apiGet c req.NamespacedName).1 = .error .NotFound) :
    (Reconcile c req).1 = ({}, none) ∧ (Reconcile c req).2.sent = c.sent := by
  rcases h with h | ⟨t, ts, hl, hg⟩
  · rw [Reconcile_of_list_empty c req h]
    exact ⟨rfl, (reads_keep_sent c req.NamespacedName).1⟩
  · rw [Reconcile_of_get_error c req t ts _ hl hg]
    exact ⟨rfl, (reads_keep_sent c req.NamespacedName).2.1⟩

theorem Reconcile_nothing_to_report_witness :
    ((apiList podGoneCluster).1 = .ok [] ∨
      ∃ t ts, (apiList podGoneCluster).1 = .ok (t :: ts) ∧
        (apiGet podGoneCluster sampleRequest.NamespacedName).1 = .error .NotFound) ∧
      (Reconcile podGoneCluster sampleRequest).1 = ({}, none) ∧
      (Reconcile podGoneCluster sampleRequest).2.sent = [] :=
  have hyp : (apiList podGoneCluster).1 = .ok [] ∨
      ∃ t ts, (apiList podGoneCluster).1 = .ok (t :: ts) ∧
        (apiGet podGoneCluster sampleRequest.NamespacedName).1 = .error .NotFound :=
    Or.inr ⟨sampleTracker, [], rfl, rfl⟩
  ⟨hyp, Reconcile_nothing_to_report podGoneCluster sampleRequest hyp⟩

/-- C6: `Reconcile` returns the non-nil error `err` exactly when `err` is not a
not-found error and is the failure of the Tracker listing, or of the Workload
read made after a non-empty listing; a returned error comes with no delivery and
the empty Result, and a not-found failure of either read gives a nil error. -/
theorem Reconcile_error_iff_read_failure (c : Cluster) (req : Request) (err : APIError) :
    ((Reconcile c req).1.2 = some err ↔
        err ≠ .NotFound ∧
          ((apiList c).1 = .error err ∨
            ∃ t ts, (apiList c).1 = .ok (t :: ts) ∧
              (apiGet c req.NamespacedName).1 = .error err)) ∧
      ((Reconcile c req).1.2 = some err → (Reconcile c req).2.sent = c.sent) ∧
      (Reconcile c req).1.1 = {} ∧
      ((apiList c).1 = .error .NotFound → (Reconcile c req).1.2 = none) ∧
      ((∃ t ts, (apiList c).1 = .ok (t :: ts)) →
        (apiGet c req.NamespacedName).1 = .error .NotFound → (Reconcile c req).1.2 = none) := by
  rcases except_cases (apiList c).1 with ⟨e, hl⟩ | ⟨items, hl⟩
  · rw [Reconcile_of_list_error c req e hl]
    refine ⟨?_, fun _ => (reads_keep_sent c req.NamespacedName).1, rfl, ?_, ?_⟩
    · show IgnoreNotFound (some e) = some err ↔ _
      rw [IgnoreNotFound_eq_some, hl]
      simp
    · intro h
      rw [hl] at h
      injection h with h
      subst h
      rfl
    · rintro ⟨t, ts, h⟩
      rw [hl] at h
      cases h
  · cases items with
    | nil =>
      rw [Reconcile_of_list_empty c req hl]
      refine ⟨?_, fun _ => (reads_keep_sent c req.NamespacedName).1, rfl, fun _ => rfl,
        fun _ _ => rfl⟩
      show none = some err ↔ _
      rw [hl]
      simp
    | cons t ts =>
      rcases except_cases (apiGet c req.NamespacedName).1 with ⟨e, hg⟩ | ⟨pod, hg⟩
      · rw [Reconcile_of_get_error c req t ts e hl hg]
        refine ⟨?_, fun _ => (reads_keep_sent c req.NamespacedName).2.1, rfl, ?_, ?_⟩
        · show IgnoreNotFound (some e) = some err ↔ _
          rw [IgnoreNotFound_eq_some, hl, hg]
          simp
        · intro h
          rw [hl] at h
          cases h
        · intro _ h
          rw [hg] at h
          injection h with h
          subst h
          rfl
      · rw [Reconcile_of_get_ok c req t ts pod hl hg]
        refine ⟨?_, ?_, rfl, fun _ => rfl, fun _ _ => rfl⟩
        · show none = some err ↔ _
          rw [hl, hg]
          simp
        · intro h
          cases h

/-- C8: with a Tracker listed and the Workload read, when the delivery of the
message fails with `cause`, the outcome of `Reconcile` is still the empty Result
with a nil error, the outcome is the same under every delivery script, and
exactly one delivery attempt is made (one call recorded, one script entry
consumed). -/
theorem Reconcile_done_when_delivery_fails (c : Cluster) (req : Request)
    (t : PodTracker) (ts : List PodTracker) (pod : Pod) (cause : String)
    (hl : (apiList c).1 = .ok (t :: ts))
    (hg : (apiGet c req.NamespacedName).1 = .ok pod)
    (hs : nextFault c.sendFaults = some cause) :
    (slackSendMessage c t.Spec.Report.Key t.Spec.Report.Channel
        ("New pod created: " ++ pod.Name)).1 = some cause ∧
      (Reconcile c req).1 = ({}, none) ∧
      (∀ script, (Reconcile { c with sendFaults := script } req).1 = (Reconcile c req).1) ∧
      (Reconcile c req).2.sent.length = c.sent.length + 1 ∧
      (Reconcile c req).2.sendFaults = c.sendFaults.tail := by
  have hr := Reconcile_of_get_ok c req t ts pod hl hg
  refine ⟨hs, by rw [hr], ?_, ?_, ?_⟩
  · intro script
    have hl2 : (apiList { c with sendFaults := script }).1 = .ok (t :: ts) := by
      rw [← hl]
      unfold apiList
      cases nextFault c.listFaults <;> rfl
    have hg2 : (apiGet { c with sendFaults := script } req.NamespacedName).1 = .ok pod := by
      rw [← hg]
      unfold apiGet
      cases hf : nextFault c.getFaults with
      | some e => simp [hf]
      | none => cases hp : findPod c.Pods req.NamespacedName <;> simp [hf, hp]
    rw [Reconcile_of_get_ok _ req t ts pod hl2 hg2, hr]
  · rw [hr]
    show ((apiGet (apiList c).2 req.NamespacedName).2.sent ++ _).length = _
    rw [(reads_keep_sent c req.NamespacedName).2.1]
    simp
  · rw [hr]
    show ((apiGet (apiList c).2 req.NamespacedName).2.sendFaults).tail = _
    rw [(reads_keep_sent c req.NamespacedName).2.2]

theorem Reconcile_done_when_delivery_fails_witness :
    (apiList sinkDownCluster).1 = .ok [sampleTracker] ∧
      (apiGet sinkDownCluster sampleRequest.NamespacedName).1 = .ok (samplePod []) ∧
      nextFault sinkDownCluster.sendFaults = some "channel_not_found" ∧
      (Reconcile sinkDownCluster sampleRequest).1 = ({}, none) ∧
      (Reconcile sinkDownCluster sampleRequest).2.sent.length = 1 :=
  have h := Reconcile_done_when_delivery_fails sinkDownCluster sampleRequest
    sampleTracker [] (samplePod []) "channel_not_found" rfl rfl rfl
  ⟨rfl, rfl, rfl, h.2.1, h.2.2.2.1⟩

/-! ## Properties of `HandlePodEvents` -/

/-- An admitted event: what `markAndRequest_effect` says, read at the state the
fresh read leaves. -/
theorem HandlePodEvents_admitted_effect (c : Cluster) (pod podObject : Pod)
    (hns : pod.Namespace = "default")
    (hg : (apiGet c ⟨pod.Namespace, pod.Name⟩).1 = .ok podObject)
    (hann : podObject.Annotations.length = 0 ∨
      annotationsGet podObject.Annotations "exampleAnnotation" = "crd.kube.op") :
    (HandlePodEvents c pod).1 = [{ NamespacedName := ⟨pod.Namespace, pod.Name⟩ }] ∧
      (HandlePodEvents c pod).2.updates = c.updates ++ [markedPod podObject] ∧
      (HandlePodEvents c pod).2.updateFaults = c.updateFaults.tail ∧
      (HandlePodEvents c pod).2.getFaults = c.getFaults.tail ∧
      (nextFault c.updateFaults = none →
        (HandlePodEvents c pod).2.Pods = replacePod c.Pods (markedPod podObject) ∧
        findPod (HandlePodEvents c pod).2.Pods ⟨pod.Namespace, pod.Name⟩ =
          some (markedPod podObject)) ∧
      (∀ e, nextFault c.updateFaults = some e → (HandlePodEvents c pod).2.Pods = c.Pods) := by
  rw [HandlePodEvents_of_admitted c pod podObject hns hg hann]
  exact markAndRequest_effect { c with getFaults := c.getFaults.tail } ⟨pod.Namespace, pod.Name⟩
    podObject (apiGet_ok c _ podObject hg).2.1

/-- C7, as stated, fails: the pod is in "default", is found on the fresh read and
carries the sentinel annotation `SourceCRD = crd.kube.op`, yet `HandlePodEvents`
returns no request, whether the next `Update` would conflict, time out or be
served; no `Update` is issued at all. -/
theorem HandlePodEvents_marked_pod_emits_nothing :
    (samplePod markerAnnotations).Namespace = "default" ∧
      (apiGet markedConflictCluster ⟨"default", "web-7f9"⟩).1 =
        .ok (samplePod markerAnnotations) ∧
      annotationsGet (samplePod markerAnnotations).Annotations "SourceCRD" = "crd.kube.op" ∧
      (HandlePodEvents markedConflictCluster (samplePod markerAnnotations)).1 = [] ∧
      (HandlePodEvents { markedConflictCluster with
        updateFaults := [some (.Other "request timed out")] }
        (samplePod markerAnnotations)).1 = [] ∧
      (HandlePodEvents { markedConflictCluster with updateFaults := [] }
        (samplePod markerAnnotations)).1 = [] ∧
      (HandlePodEvents markedConflictCluster (samplePod markerAnnotations)).2.updates = [] :=
  ⟨rfl, rfl, by decide, by decide, by decide, by decide, by decide⟩

/-- C7, amended: for a Workload of "default" found on the fresh read with no
annotations or with the annotation `exampleAnnotation = crd.kube.op` (the one
the classification reads), `HandlePodEvents` returns exactly one request, keyed
by the workload's namespace and name, under every outcome script of `Update`
(served, conflict or any other error); and every call returns at most one
request. -/
theorem HandlePodEvents_emits_whatever_update_does (c : Cluster) (pod podObject : Pod)
    (hns : pod.Namespace = "default")
    (hg : (apiGet c ⟨pod.Namespace, pod.Name⟩).1 = .ok podObject)
    (hann : podObject.Annotations.length = 0 ∨
      annotationsGet podObject.Annotations "exampleAnnotation" = "crd.kube.op") :
    (∀ script, (HandlePodEvents { c with updateFaults := script } pod).1 =
        [{ NamespacedName := ⟨podObject.Namespace, podObject.Name⟩ }]) ∧
      ∀ (c0 : Cluster) (pod0 : Pod), (HandlePodEvents c0 pod0).1.length ≤ 1 := by
  constructor
  · intro script
    have hk := apiGet_ok c _ podObject hg
    have hg2 : (apiGet { c with updateFaults := script } ⟨pod.Namespace, pod.Name⟩).1 =
        .ok podObject := by
      rw [← hg]
      unfold apiGet
      cases hf : nextFault c.getFaults with
      | some e => simp [hf]
      | none => cases hp : findPod c.Pods ⟨pod.Namespace, pod.Name⟩ <;> simp [hf, hp]
    rw [(HandlePodEvents_admitted_effect _ pod podObject hns hg2 hann).1]
    simp only [hk.2.2.1, hk.2.2.2]
  · intro c0 pod0
    rcases except_cases (apiGet c0 ⟨pod0.Namespace, pod0.Name⟩).1 with ⟨e, h⟩ | ⟨p, h⟩
    · rw [(HandlePodEvents_of_get_error c0 pod0 e h).1]
      simp
    · by_cases hns0 : pod0.Namespace = "default"
      · by_cases ha : p.Annotations.length = 0 ∨
            annotationsGet p.Annotations "exampleAnnotation" = "crd.kube.op"
        · rw [(HandlePodEvents_admitted_effect c0 pod0 p hns0 h ha).1]
          simp
        · rw [not_or] at ha
          rw [(HandlePodEvents_of_rejected c0 pod0 p h ha.1 ha.2).1]
          simp
      · unfold HandlePodEvents
        rw [if_pos hns0]
        simp

theorem HandlePodEvents_emits_whatever_update_does_witness :
    (samplePod []).Namespace = "default" ∧
      (apiGet conflictOnceCluster ⟨"default", "web-7f9"⟩).1 = .ok (samplePod []) ∧
      (HandlePodEvents conflictOnceCluster (samplePod [])).1 = [sampleRequest] ∧
      (HandlePodEvents writeTimeoutCluster (samplePod [])).1 = [sampleRequest] :=
  have h := (HandlePodEvents_emits_whatever_update_does conflictOnceCluster (samplePod [])
    (samplePod []) rfl rfl (Or.inl rfl)).1
  ⟨rfl, rfl, h [some .Conflict], h [some (.Other "request timed out")]⟩

/-- C3, as stated, fails: the pod is stored in "default" without annotations, the
`Update` times out, one request is emitted and the stored pod still has no
annotations. -/
theorem HandlePodEvents_unannotated_update_fails :
    findPod writeTimeoutCluster.Pods sampleKey = some (samplePod []) ∧
      (HandlePodEvents writeTimeoutCluster (samplePod [])).1.length = 1 ∧
      findPod (HandlePodEvents writeTimeoutCluster (samplePod [])).2.Pods sampleKey =
        some (samplePod []) ∧
      (samplePod []).Annotations ≠ markerAnnotations := by
  decide

/-- C3, amended: for a Workload of "default" read without annotations,
`HandlePodEvents` emits exactly one request; when the `Update` is served the
stored Workload's annotation set is exactly the marker, and when the `Update`
fails the stored Workloads are left as they were. -/
theorem HandlePodEvents_marks_unannotated (c : Cluster) (pod podObject : Pod)
    (hns : pod.Namespace = "default")
    (hg : (apiGet c ⟨pod.Namespace, pod.Name⟩).1 = .ok podObject)
    (hann : podObject.Annotations = []) :
    (HandlePodEvents c pod).1 = [{ NamespacedName := ⟨pod.Namespace, pod.Name⟩ }] ∧
      (nextFault c.updateFaults = none →
        findPod (HandlePodEvents c pod).2.Pods ⟨pod.Namespace, pod.Name⟩ =
          some { podObject with Annotations := [("SourceCRD", "crd.kube.op")] }) ∧
      (∀ e, nextFault c.updateFaults = some e → (HandlePodEvents c pod).2.Pods = c.Pods) := by
  have h := HandlePodEvents_admitted_effect c pod podObject hns hg
    (Or.inl (by rw [hann]; rfl))
  exact ⟨h.1, fun hu => (h.2.2.2.2.1 hu).2, h.2.2.2.2.2⟩

theorem HandlePodEvents_marks_unannotated_witness :
    (samplePod []).Namespace = "default" ∧
      (apiGet (sampleCluster []) ⟨"default", "web-7f9"⟩).1 = .ok (samplePod []) ∧
      (HandlePodEvents (sampleCluster []) (samplePod [])).1 = [sampleRequest] ∧
      findPod (HandlePodEvents (sampleCluster []) (samplePod [])).2.Pods sampleKey =
        some (samplePod markerAnnotations) :=
  have h := HandlePodEvents_marks_unannotated (sampleCluster []) (samplePod []) (samplePod [])
    rfl rfl rfl
  ⟨rfl, rfl, h.1, h.2.1 rfl⟩

/-- C2, as stated, fails: the pod is stored in "default" with exactly the marker
`SourceCRD = crd.kube.op`, and `HandlePodEvents` emits no request. -/
theorem HandlePodEvents_marker_only_not_admitted :
    findPod (sampleCluster markerAnnotations).Pods sampleKey =
        some (samplePod markerAnnotations) ∧
      annotationsGet (samplePod markerAnnotations).Annotations "SourceCRD" = "crd.kube.op" ∧
      (HandlePodEvents (sampleCluster markerAnnotations) (samplePod markerAnnotations)).1 = [] := by
  decide

/-- C2, amended: for a Workload of "default" read with the marker
`SourceCRD = crd.kube.op`, `HandlePodEvents` emits exactly one request when the
Workload also carries `exampleAnnotation = crd.kube.op` and none otherwise; in
both cases the stored Workload still carries `SourceCRD = crd.kube.op` after the
call. -/
theorem HandlePodEvents_marked_keeps_marker (c : Cluster) (pod podObject : Pod)
    (hns : pod.Namespace = "default")
    (hg : (apiGet c ⟨pod.Namespace, pod.Name⟩).1 = .ok podObject)
    (hmark : annotationsGet podObject.Annotations "SourceCRD" = "crd.kube.op") :
    (HandlePodEvents c pod).1 =
        (if annotationsGet podObject.Annotations "exampleAnnotation" = "crd.kube.op"
          then [{ NamespacedName := ⟨pod.Namespace, pod.Name⟩ }] else []) ∧
      ∃ p, findPod (HandlePodEvents c pod).2.Pods ⟨pod.Namespace, pod.Name⟩ = some p ∧
        annotationsGet p.Annotations "SourceCRD" = "crd.kube.op" := by
  have hf := (apiGet_ok c _ podObject hg).2.1
  by_cases hs : annotationsGet podObject.Annotations "exampleAnnotation" = "crd.kube.op"
  · have h := HandlePodEvents_admitted_effect c pod podObject hns hg (Or.inr hs)
    rw [if_pos hs]
    refine ⟨h.1, ?_⟩
    cases hu : nextFault c.updateFaults with
    | none =>
      have hm : annotationsGet markerAnnotations "SourceCRD" = "crd.kube.op" := by decide
      exact ⟨markedPod podObject, (h.2.2.2.2.1 hu).2, hm⟩
    | some e =>
      rw [h.2.2.2.2.2 e hu]
      exact ⟨podObject, hf, hmark⟩
  · have hne := annotationsGet_ne_of_nil podObject.Annotations "SourceCRD" "crd.kube.op"
      hmark (by decide)
    have h := HandlePodEvents_of_rejected c pod podObject hg hne hs
    rw [if_neg hs, h.2.1]
    exact ⟨h.1, podObject, hf, hmark⟩

theorem HandlePodEvents_marked_keeps_marker_witness :
    (samplePod managedAnnotations).Namespace = "default" ∧
      (apiGet (sampleCluster managedAnnotations) ⟨"default", "web-7f9"⟩).1 =
        .ok (samplePod managedAnnotations) ∧
      annotationsGet (samplePod managedAnnotations).Annotations "SourceCRD" = "crd.kube.op" ∧
      (HandlePodEvents (sampleCluster managedAnnotations) (samplePod managedAnnotations)).1 =
        [sampleRequest] :=
  have h := HandlePodEvents_marked_keeps_marker (sampleCluster managedAnnotations)
    (samplePod managedAnnotations) (samplePod managedAnnotations) rfl rfl rfl
  ⟨rfl, rfl, rfl, h.1⟩

/-- C4, as stated, fails: the annotation set read is non-empty and does not carry
`SourceCRD = crd.kube.op`, yet one request is emitted, one `Update` is issued and
the stored pod is rewritten. -/
theorem HandlePodEvents_sentinel_without_marker_admitted :
    (samplePod sentinelAnnotations).Annotations ≠ [] ∧
      annotationsGet (samplePod sentinelAnnotations).Annotations "SourceCRD" ≠ "crd.kube.op" ∧
      (HandlePodEvents (sampleCluster sentinelAnnotations) (samplePod sentinelAnnotations)).1 =
        [sampleRequest] ∧
      (HandlePodEvents (sampleCluster sentinelAnnotations)
        (samplePod sentinelAnnotations)).2.updates = [samplePod markerAnnotations] ∧
      (HandlePodEvents (sampleCluster sentinelAnnotations)
        (samplePod sentinelAnnotations)).2.Pods ≠ (sampleCluster sentinelAnnotations).Pods := by
  decide

/-- C4, amended: for a Workload whose freshly read annotation set is non-empty
and does not carry `exampleAnnotation = crd.kube.op`, `HandlePodEvents` emits no
request and issues no `Update`, and the stored Workloads are left unchanged. -/
theorem HandlePodEvents_rejects_other_annotations (c : Cluster) (pod podObject : Pod)
    (hg : (apiGet c ⟨pod.Namespace, pod.Name⟩).1 = .ok podObject)
    (hne : podObject.Annotations ≠ [])
    (hs : annotationsGet podObject.Annotations "exampleAnnotation" ≠ "crd.kube.op") :
    (HandlePodEvents c pod).1 = [] ∧ (HandlePodEvents c pod).2.updates = c.updates ∧
      (HandlePodEvents c pod).2.Pods = c.Pods := by
  have hlen : podObject.Annotations.length ≠ 0 := by
    intro h0
    exact hne (List.length_eq_zero.mp h0)
  have h := HandlePodEvents_of_rejected c pod podObject hg hlen hs
  exact ⟨h.1, h.2.2, h.2.1⟩

theorem HandlePodEvents_rejects_other_annotations_witness :
    (apiGet (sampleCluster foreignAnnotations) ⟨"default", "web-7f9"⟩).1 =
        .ok (samplePod foreignAnnotations) ∧
      (samplePod foreignAnnotations).Annotations ≠ [] ∧
      annotationsGet (samplePod foreignAnnotations).Annotations "exampleAnnotation" ≠
        "crd.kube.op" ∧
      (HandlePodEvents (sampleCluster foreignAnnotations) (samplePod foreignAnnotations)).1 = [] ∧
      (HandlePodEvents (sampleCluster foreignAnnotations) (samplePod foreignAnnotations)).2.updates
        = [] :=
  have h := HandlePodEvents_rejects_other_annotations (sampleCluster foreignAnnotations)
    (samplePod foreignAnnotations) (samplePod foreignAnnotations) rfl (by decide) (by decide)
  ⟨rfl, by decide, by decide, h.1, h.2.1⟩

/-- C9, as stated, fails: only the first `Update` meets a conflict and a further
attempt on the resulting state is served, yet `HandlePodEvents` has issued one
`Update` only and the stored pod is left without the marker. -/
theorem HandlePodEvents_conflict_leaves_unmarked :
    nextFault conflictOnceCluster.updateFaults = some .Conflict ∧
      (apiUpdate (HandlePodEvents conflictOnceCluster (samplePod [])).2
        (samplePod markerAnnotations)).1 = none ∧
      (HandlePodEvents conflictOnceCluster (samplePod [])).2.updates =
        [samplePod markerAnnotations] ∧
      findPod (HandlePodEvents conflictOnceCluster (samplePod [])).2.Pods sampleKey =
        some (samplePod []) ∧
      annotationsGet (samplePod []).Annotations "SourceCRD" ≠ "crd.kube.op" := by
  decide

/-- C9, amended: when the `Update` issued by `HandlePodEvents` for an admitted
Workload fails with a write conflict, nothing is retried: that one `Update` is
the only one issued, one entry of the outcome script is consumed, the stored
Workloads are left as they were, and the request is emitted all the same. -/
theorem HandlePodEvents_conflict_not_retried (c : Cluster) (pod podObject : Pod)
    (hns : pod.Namespace = "default")
    (hg : (apiGet c ⟨pod.Namespace, pod.Name⟩).1 = .ok podObject)
    (hann : podObject.Annotations.length = 0 ∨
      annotationsGet podObject.Annotations "exampleAnnotation" = "crd.kube.op")
    (hu : nextFault c.updateFaults = some .Conflict) :
    (HandlePodEvents c pod).2.updates =
        c.updates ++ [{ podObject with Annotations := [("SourceCRD", "crd.kube.op")] }] ∧
      (HandlePodEvents c pod).2.updateFaults = c.updateFaults.tail ∧
      (HandlePodEvents c pod).2.Pods = c.Pods ∧
      (HandlePodEvents c pod).1 = [{ NamespacedName := ⟨pod.Namespace, pod.Name⟩ }] := by
  have h := HandlePodEvents_admitted_effect c pod podObject hns hg hann
  exact ⟨h.2.1, h.2.2.1, h.2.2.2.2.2 _ hu, h.1⟩

theorem HandlePodEvents_conflict_not_retried_witness :
    (samplePod []).Namespace = "default" ∧
      (apiGet conflictOnceCluster ⟨"default", "web-7f9"⟩).1 = .ok (samplePod []) ∧
      nextFault conflictOnceCluster.updateFaults = some .Conflict ∧
      (HandlePodEvents conflictOnceCluster (samplePod [])).2.updates =
        [samplePod markerAnnotations] ∧
      (HandlePodEvents conflictOnceCluster (samplePod [])).2.Pods = [samplePod []] :=
  have h := HandlePodEvents_conflict_not_retried conflictOnceCluster (samplePod [])
    (samplePod []) rfl rfl (Or.inl rfl) rfl
  ⟨rfl, rfl, rfl, h.1, h.2.2.1⟩

/-- C10: for a Workload of "default" read without annotations whose marker
`Update` is served (so it succeeds, the Workload being stored), a second
`HandlePodEvents` for the same Workload on the resulting state emits no request,
issues no `Update` and leaves the stored Workloads as they are. -/
theorem HandlePodEvents_replay_is_silent (c : Cluster) (pod podObject : Pod)
    (hns : pod.Namespace = "default")
    (hg : (apiGet c ⟨pod.Namespace, pod.Name⟩).1 = .ok podObject)
    (hann : podObject.Annotations = [])
    (hu : nextFault c.updateFaults = none) :
    (HandlePodEvents (HandlePodEvents c pod).2 pod).1 = [] ∧
      (HandlePodEvents (HandlePodEvents c pod).2 pod).2.updates =
        (HandlePodEvents c pod).2.updates ∧
      (HandlePodEvents (HandlePodEvents c pod).2 pod).2.Pods = (HandlePodEvents c pod).2.Pods := by
  have h := HandlePodEvents_admitted_effect c pod podObject hns hg
    (Or.inl (by rw [hann]; rfl))
  have hstored := (h.2.2.2.2.1 hu).2
  rcases except_cases (apiGet (HandlePodEvents c pod).2 ⟨pod.Namespace, pod.Name⟩).1 with
    ⟨e, h2⟩ | ⟨p, h2⟩
  · have r := HandlePodEvents_of_get_error _ pod e h2
    exact ⟨r.1, r.2.2, r.2.1⟩
  · have hp := (apiGet_ok _ _ p h2).2.1
    rw [hstored] at hp
    injection hp with hp
    subst hp
    have hlen : markerAnnotations.length ≠ 0 := by decide
    have hkey : annotationsGet markerAnnotations "exampleAnnotation" ≠ "crd.kube.op" := by
      decide
    have r := HandlePodEvents_of_rejected _ pod (markedPod podObject) h2 hlen hkey
    exact ⟨r.1, r.2.2, r.2.1⟩

theorem HandlePodEvents_replay_is_silent_witness :
    (samplePod []).Namespace = "default" ∧
      (apiGet (sampleCluster []) ⟨"default", "web-7f9"⟩).1 = .ok (samplePod []) ∧
      nextFault (sampleCluster []).updateFaults = none ∧
      (HandlePodEvents (sampleCluster []) (samplePod [])).1 = [sampleRequest] ∧
      (HandlePodEvents (HandlePodEvents (sampleCluster []) (samplePod [])).2 (samplePod [])).1 = [] ∧
      (HandlePodEvents (HandlePodEvents (sampleCluster []) (samplePod [])).2
        (samplePod [])).2.updates = [samplePod markerAnnotations] :=
  have h := HandlePodEvents_replay_is_silent (sampleCluster []) (samplePod []) (samplePod [])
    rfl rfl rfl rfl
  ⟨rfl, rfl, rfl, rfl, h.1, h.2.1⟩

end TrackerController
